import Mathlib

/-!
Verification of the multi-strategy reasoning controller
(`app/agent/reasoning.py` and `app/prompt/reasoning.py`).

Strings are modelled as `List Char`; Python's case-insensitive substring
checks become `containsSub` over `lowerL`.
-/

namespace Reasoning

/-- Python `str.startswith` on character lists: `startsWithL needle hay`. -/
def startsWithL : List Char → List Char → Bool
  | [], _ => true
  | _ :: _, [] => false
  | n :: ns, h :: hs => n == h && startsWithL ns hs

/-- Python `needle in hay` (substring containment) on character lists. -/
def containsSub (needle : List Char) : List Char → Bool
  | [] => needle.isEmpty
  | h :: hs => startsWithL needle (h :: hs) || containsSub needle hs

/-- Python `hay.find(needle)`: index of the first occurrence, `none` for `-1`. -/
def findSub (needle : List Char) : List Char → Option Nat
  | [] => if needle.isEmpty then some 0 else none
  | h :: hs =>
    if startsWithL needle (h :: hs) then some 0
    else (findSub needle hs).map (· + 1)

/-- ASCII lower-casing of one character, as Python `str.lower` acts on the
ASCII text this module manipulates. -/
def lowerChar (c : Char) : Char :=
  if 'A' ≤ c && c ≤ 'Z' then Char.ofNat (c.toNat + 32) else c

/-- Python `str.lower` on character lists (ASCII). -/
def lowerL (s : List Char) : List Char := s.map lowerChar

/-- Python `str.strip()` (both-ends whitespace trim) on character lists. -/
def isPySpace (c : Char) : Bool :=
  c == ' ' || c == '\t' || c == '\n' || c == '\r' || c == '\x0b' || c == '\x0c'

def stripL (s : List Char) : List Char :=
  ((s.dropWhile isPySpace).reverse.dropWhile isPySpace).reverse

/-- The `ReasoningStrategy` enumeration of `app/agent/reasoning.py`. -/
inductive ReasoningStrategy where
  | COT
  | TOT
  | SOCRATIC
  | FIRST_PRINCIPLES
  | ANALOGICAL
  | COUNTERFACTUAL
  | STEP_BACK
deriving DecidableEq, Repr

/-- The `.value` string of each enum member. -/
def ReasoningStrategy.value : ReasoningStrategy → List Char
  | .COT => "chain_of_thought".data
  | .TOT => "tree_of_thought".data
  | .SOCRATIC => "socratic".data
  | .FIRST_PRINCIPLES => "first_principles".data
  | .ANALOGICAL => "analogical".data
  | .COUNTERFACTUAL => "counterfactual".data
  | .STEP_BACK => "step_back".data

/-- All enum members in declaration order (Python `[s.value for s in ReasoningStrategy]`
iterates in this order). -/
def allStrategies : List ReasoningStrategy :=
  [.COT, .TOT, .SOCRATIC, .FIRST_PRINCIPLES, .ANALOGICAL, .COUNTERFACTUAL, .STEP_BACK]

/-- Message roles used by the agent (`app/schema.py` interface). -/
inductive Role where
  | system
  | user
  | assistant
deriving DecidableEq, Repr

/-- A conversation message: role plus text content. -/
structure Message where
  role : Role
  content : List Char
deriving DecidableEq, Repr

/-- One entry of `reasoning_trace` as appended by `_analyze_reasoning`:
step number, detected strategy identifiers, component-name-to-presence
mapping (an association list in Python dict insertion order), and the
depth score. -/
structure TraceRecord where
  step : Nat
  strategiesUsed : List (List Char)
  components : List (List Char × Bool)
  depth : Nat
deriving DecidableEq, Repr

/-- The mutable fields of `ReasoningAgent` relevant to the embedded methods,
plus `current_step` inherited from the base agent and the conversation
memory (an append-only list of messages). -/
structure AgentState where
  primaryStrategy : ReasoningStrategy
  fallbackStrategies : List ReasoningStrategy
  activeStrategies : Finset ReasoningStrategy
  maxReasoningDepth : Nat
  maxSteps : Nat
  reasoningTrace : List TraceRecord
  reasoningComplete : Bool
  inReasoningPhase : Bool
  currentReasoningStep : Nat
  currentStep : Nat
  memory : List Message
  currentResult : List Char
deriving DecidableEq

/-- The `ensure_unique_strategies` field validator: if the primary strategy
occurs in the fallback list, Python `list.remove` deletes its first
occurrence. -/
def ensure_unique_strategies (primary : ReasoningStrategy)
    (v : List ReasoningStrategy) : List ReasoningStrategy :=
  if primary ∈ v then v.erase primary else v

/-- `initialize_reasoning`: active set becomes `{primary}` plus the first two
fallback strategies; trace, phase, step counter and completion flag reset. -/
def initialize_reasoning (s : AgentState) : AgentState :=
  { s with
    activeStrategies := insert s.primaryStrategy (s.fallbackStrategies.take 2).toFinset
    reasoningTrace := []
    inReasoningPhase := true
    currentReasoningStep := 0
    reasoningComplete := false }

/-- `f"<strategy>{strategy}</strategy>" in response.lower()`. -/
def strategyTagDetected (response : List Char) (s : List Char) : Bool :=
  containsSub ("<strategy>".data ++ s ++ "</strategy>".data) (lowerL response)

/-- The `<primary_strategy>` detection pass of `_analyze_reasoning` (guarded by
the presence of the opening marker). -/
def primaryTagDetected (response : List Char) (s : List Char) : Bool :=
  containsSub "<primary_strategy>".data (lowerL response) &&
    containsSub ("<primary_strategy>".data ++ s ++ "</primary_strategy>".data)
      (lowerL response)

/-- The `used_strategies` set of `_analyze_reasoning`, listed in enum order
(Python builds a `set`, whose listing order is unspecified; membership is
what the record carries). -/
def usedStrategies (response : List Char) : List (List Char) :=
  (allStrategies.map ReasoningStrategy.value).filter fun s =>
    strategyTagDetected response s || primaryTagDetected response s

/-- The five standard component names checked unconditionally. -/
def componentNames : List (List Char) :=
  ["question".data, "process".data, "alternatives".data, "evaluation".data,
   "conclusion".data]

/-- `found_components`: a standard component is present iff both `<c>` and
`</c>` occur (case-insensitively) in the response. -/
def foundComponents (response : List Char) : List (List Char × Bool) :=
  componentNames.map fun c =>
    (c, containsSub ('<' :: c ++ ">".data) (lowerL response) &&
        containsSub ("</".data ++ c ++ ">".data) (lowerL response))

/-- `advanced_components`: conditional components recorded only when their
strategy is active; each is detected from its opening marker alone (for
`branch` and `counterfactual`, even without the closing `>` of the tag). -/
def advancedComponents (active : Finset ReasoningStrategy)
    (response : List Char) : List (List Char × Bool) :=
  (if ReasoningStrategy.TOT ∈ active then
    [("branch".data, containsSub "<branch".data (lowerL response)),
     ("branch_selection".data,
      containsSub "<branch_selection>".data (lowerL response))]
  else []) ++
  (if ReasoningStrategy.COUNTERFACTUAL ∈ active then
    [("counterfactual".data, containsSub "<counterfactual".data (lowerL response))]
  else []) ++
  (if ReasoningStrategy.SOCRATIC ∈ active then
    [("inquiry".data, containsSub "<inquiry>".data (lowerL response))]
  else [])

/-- The trace record built by `_analyze_reasoning` for one response. -/
def analyzeRecord (s : AgentState) (response : List Char) : TraceRecord :=
  { step := s.currentReasoningStep
    strategiesUsed := usedStrategies response
    components := foundComponents response ++ advancedComponents s.activeStrategies response
    depth := (foundComponents response).countP (·.2) }

/-- `_analyze_reasoning`: appends exactly one trace record. -/
def analyze_reasoning (s : AgentState) (response : List Char) : AgentState :=
  { s with reasoningTrace := s.reasoningTrace ++ [analyzeRecord s response] }

/-- The conclusion-marker-pair test used by `_is_reasoning_complete`. -/
def hasConclusion (response : List Char) : Bool :=
  containsSub "<conclusion>".data (lowerL response) &&
    containsSub "</conclusion>".data (lowerL response)

/-- `_is_reasoning_complete`. -/
def is_reasoning_complete (s : AgentState) (response : List Char) : Bool :=
  if s.maxSteps ≤ s.currentReasoningStep then true
  else if ReasoningStrategy.TOT ∈ s.activeStrategies ∧
          s.maxReasoningDepth ≤ s.currentReasoningStep then
    hasConclusion response
  else if s.activeStrategies.card = 1 ∧ s.primaryStrategy = ReasoningStrategy.COT then
    hasConclusion response
  else
    hasConclusion response && decide (2 ≤ s.currentReasoningStep)

/-- Guidance literal appended for `tree_of_thought` at step 2. -/
def totStep2Guidance : List Char :=
  "For this step, continue exploring the most promising branches from your initial reasoning.".data

/-- Guidance literal appended for `tree_of_thought` at step 3. -/
def totStep3Guidance : List Char :=
  "For this step, select the most promising branch and develop it further.".data

/-- Guidance literal appended for `socratic` at step 2. -/
def socStep2Guidance : List Char :=
  "For this step, deepen your inquiry with follow-up questions based on your initial exploration.".data

/-- Guidance literal appended for `socratic` at step 3. -/
def socStep3Guidance : List Char :=
  "For this step, synthesize insights from your questioning process.".data

/-- Cross-strategy synthesis guidance (multiple strategies, step at least 3). -/
def synthesisGuidance : List Char :=
  "Begin synthesizing insights from the different reasoning strategies you\x27ve employed.".data

/-- Finalize-conclusion guidance (step at least `max(3, max_steps - 1)`). -/
def finalizeGuidance : List Char :=
  "Focus on finalizing your conclusion based on all your reasoning so far.".data

/-- `_get_step_guidance`: reads only the current reasoning step, the active
strategy set and `max_steps`. -/
def get_step_guidance (s : AgentState) : List Char :=
  if s.currentReasoningStep = 1 then []
  else
    let g1 := if ReasoningStrategy.TOT ∈ s.activeStrategies then
        (if s.currentReasoningStep = 2 then [totStep2Guidance]
         else if s.currentReasoningStep = 3 then [totStep3Guidance]
         else [])
      else []
    let g2 := if ReasoningStrategy.SOCRATIC ∈ s.activeStrategies then
        (if s.currentReasoningStep = 2 then [socStep2Guidance]
         else if s.currentReasoningStep = 3 then [socStep3Guidance]
         else [])
      else []
    let g3 := if 1 < s.activeStrategies.card ∧ 3 ≤ s.currentReasoningStep then
        [synthesisGuidance]
      else []
    let g4 := if max 3 (s.maxSteps - 1) ≤ s.currentReasoningStep then
        [finalizeGuidance]
      else []
    List.intercalate "\n".data (g1 ++ g2 ++ g3 ++ g4)

/-- The fixed assistant prompt appended when reasoning completes. -/
def actionPrompt : List Char :=
  "Based on my reasoning above, would you like me to take any actions? I can use tools to help implement any solutions or gather more information.".data

/-- The fixed clarification request of the confirmation phase. -/
def clarificationMsg : List Char :=
  "Would you like me to take any specific action based on my reasoning? Please respond with \x27yes\x27 if you want me to proceed with actions.".data

/-- The `affirmative_responses` token list of `think`. -/
def affirmative_responses : List (List Char) :=
  ["yes".data, "sure".data, "ok".data, "okay".data, "go ahead".data,
   "proceed".data, "let\x27s do it".data, "execute".data, "act".data]

/-- `self.messages[-1].content.lower() if self.messages and
self.messages[-1].role == "user" else ""`. -/
def lastUserMessageLower (msgs : List Message) : List Char :=
  match msgs.getLast? with
  | some m => if m.role = Role.user then lowerL m.content else []
  | none => []

/-- `should_act`: some affirmative token occurs as a substring of the
lower-cased most recent user message. -/
def should_act (msgs : List Message) : Bool :=
  affirmative_responses.any fun resp => containsSub resp (lastUserMessageLower msgs)

/-- The confirmation-phase branch of `think` (taken when the reasoning phase
is over): returns the updated state and the act/no-act signal. -/
def thinkConfirm (s : AgentState) : AgentState × Bool :=
  if should_act s.memory then (s, true)
  else if 1 < s.currentStep ∧ s.reasoningComplete = true then
    ({ s with memory := s.memory ++ [⟨Role.assistant, clarificationMsg⟩] }, false)
  else (s, false)

/-- The in-place step-guidance injection of `think`: when guidance is
nonempty, the most recent user message is replaced by (or, when the last
message is not a user message, a new user message is appended holding) the
original content with the guidance appended. -/
def guidanceMemory (memory : List Message) (guidance : List Char) : List Message :=
  if guidance.isEmpty then memory
  else
    let userInput := match memory.getLast? with
      | some m => if m.role = Role.user then m.content else []
      | none => []
    let newInput := if userInput.isEmpty then guidance
      else userInput ++ "\n\n".data ++ guidance
    match memory.getLast? with
    | some m =>
      if m.role = Role.user then memory.dropLast ++ [⟨Role.user, newInput⟩]
      else memory ++ [⟨Role.user, newInput⟩]
    | none => memory ++ [⟨Role.user, newInput⟩]

/-- The reasoning-phase branch of `think`.  The generation-service response
for this invocation is passed in as `response` (the system prompt built
from the templates is sent to the external service and does not affect the
agent state). -/
def thinkReasoning (s : AgentState) (response : List Char) : AgentState × Bool :=
  let s1 := { s with currentReasoningStep := s.currentReasoningStep + 1 }
  let mem1 := guidanceMemory s1.memory (get_step_guidance s1)
  let mem2 := mem1 ++ [⟨Role.assistant, response⟩]
  let s2 := analyze_reasoning { s1 with memory := mem2 } response
  if is_reasoning_complete s2 response then
    ({ s2 with
        reasoningComplete := true
        inReasoningPhase := false
        memory := s2.memory ++ [⟨Role.assistant, actionPrompt⟩]
        currentResult := response }, false)
  else (s2, false)

/-- `think`: initialization on the first step (or a reasoning phase whose step
counter is still zero), then either the reasoning-phase branch or the
confirmation branch. -/
def think (s : AgentState) (response : List Char) : AgentState × Bool :=
  let s0 := if s.currentStep = 1 ∨ (s.inReasoningPhase = true ∧ s.currentReasoningStep = 0)
    then initialize_reasoning s else s
  if s0.inReasoningPhase then thinkReasoning s0 response
  else thinkConfirm s0

/-- One invocation of the agent loop: the base agent increments the overall
step counter and calls `think` (interface of the absent base class, per the
state-machine description of the spec). -/
def invoke (s : AgentState) (response : List Char) : AgentState :=
  (think { s with currentStep := s.currentStep + 1 } response).1

/-- A run of the agent loop over a stream of generation-service responses. -/
def run (s : AgentState) (responses : List (List Char)) : AgentState :=
  responses.foldl invoke s

/-- A freshly constructed agent: class defaults for the mutable fields. -/
def freshState (primary : ReasoningStrategy) (fallbacks : List ReasoningStrategy)
    (maxDepth maxSteps : Nat) (memory : List Message) : AgentState :=
  { primaryStrategy := primary
    fallbackStrategies := fallbacks
    activeStrategies := ∅
    maxReasoningDepth := maxDepth
    maxSteps := maxSteps
    reasoningTrace := []
    reasoningComplete := false
    inReasoningPhase := true
    currentReasoningStep := 0
    currentStep := 0
    memory := memory
    currentResult := [] }

/-- The fallback action message of `act` (no extractable conclusion). -/
def actFallbackMsg : List Char :=
  "I\x27m ready to act based on my reasoning. What specific action would you like me to take?".data

/-- The conclusion-extraction core of `act`: find both markers on the
lower-cased copy, and if the first closing marker lies strictly after the
first opening marker, slice the original-cased text between them and trim. -/
def extractedConclusion (cur : List Char) : Option (List Char) :=
  match findSub "<conclusion>".data (lowerL cur),
        findSub "</conclusion>".data (lowerL cur) with
  | some cs, some ce =>
    if cs < ce then some (stripL ((cur.drop (cs + 12)).take (ce - (cs + 12))))
    else none
  | _, _ => none

/-- The action message built by `act` from `_current_result`; total, never
fails: marker-free or ill-ordered text degrades to the fallback message. -/
def act_action_msg (cur : List Char) : List Char :=
  match extractedConclusion cur with
  | some conclusion =>
    "Based on my reasoning, I will act on the following conclusion:\n\n".data ++
      conclusion ++ "\n\nWhat specific action would you like me to take?".data
  | none => actFallbackMsg

/-- `act`: appends the action message to memory and returns it. -/
def act (s : AgentState) : AgentState × List Char :=
  let msg := act_action_msg s.currentResult
  ({ s with memory := s.memory ++ [⟨Role.assistant, msg⟩] }, msg)

/-- The `COT_PROMPT` template of `app/prompt/reasoning.py`, verbatim. -/
def COT_PROMPT : String :=
  "You are an expert in Chain of Thought reasoning.

For the given problem, think through it step-by-step, showing your complete reasoning process.

Structure your response using the following XML format:

<reasoning>
  <question>Restate the problem to ensure understanding</question>

  <strategy>chain_of_thought</strategy>

  <process>
    Break down your thinking into clear, logical steps.
    Show each step of your reasoning explicitly.
    Number your steps for clarity.

    Step 1: [Initial analysis]
    Step 2: [Further development]
    ...
  </process>

  <alternatives>
    Consider at least 2 alternative approaches to this problem.
    For each alternative, briefly explain how it would work.
  </alternatives>

  <evaluation>
    Assess the strengths and weaknesses of your primary reasoning approach.
    Explain why your approach is appropriate for this problem.
  </evaluation>

  <conclusion>
    State your final answer clearly and concisely, based on your reasoning above.
  </conclusion>
</reasoning>

Remember to be thorough and transparent in your thinking process, ensuring each logical connection is explicit."

/-- The `TOT_PROMPT` template of `app/prompt/reasoning.py`, verbatim. -/
def TOT_PROMPT : String :=
  "You are an expert in Tree of Thought reasoning.

For the given problem, explore multiple reasoning paths, developing the most promising ones further.

Structure your response using the following XML format:

<reasoning>
  <question>Restate the problem to ensure understanding</question>

  <strategy>tree_of_thought</strategy>

  <process>
    <branch id=\"1\">
      <description>Describe this approach branch</description>
      <exploration>
        Step 1: [Initial idea]
        Step 2: [Development]
        Step 3: [Further development or outcome]
      </exploration>
      <assessment>Evaluate this branch\x27s promise</assessment>
    </branch>

    <branch id=\"2\">
      <description>Describe a different approach</description>
      <exploration>
        Step 1: [Initial idea]
        Step 2: [Development]
        Step 3: [Further development or outcome]
      </exploration>
      <assessment>Evaluate this branch\x27s promise</assessment>
    </branch>

    <!-- Add more branches as needed -->

    <branch_selection>
      Identify which branch(es) are most promising to pursue further and why.
    </branch_selection>
  </process>

  <alternatives>
    Briefly mention any other approaches you considered but didn\x27t fully explore.
    Explain why you chose not to pursue them in depth.
  </alternatives>

  <evaluation>
    Compare the different branches you explored.
    Discuss the trade-offs between different reasoning paths.
  </evaluation>

  <conclusion>
    Based on your exploration of different reasoning paths, state your final answer.
  </conclusion>
</reasoning>

In your Tree of Thought reasoning, be sure to:
1. Generate diverse initial branches
2. Develop the most promising branches further
3. Prune unpromising paths
4. Provide justification for your branch selection"

/-- The `SOCRATIC_PROMPT` template of `app/prompt/reasoning.py`, verbatim. -/
def SOCRATIC_PROMPT : String :=
  "You are an expert in Socratic questioning for reasoning.

For the given problem, use a series of probing questions to explore the topic deeply.

Structure your response using the following XML format:

<reasoning>
  <question>Restate the problem to ensure understanding</question>

  <strategy>socratic</strategy>

  <process>
    <inquiry>
      <main_question>Ask a fundamental question about the problem</main_question>
      <exploration>Explore possible answers to this question</exploration>
      <follow_up>Ask a follow-up question based on this exploration</follow_up>
      <insight>Note what you\x27ve learned from this line of questioning</insight>
    </inquiry>

    <inquiry>
      <!-- Repeat the structure for additional lines of questioning -->
    </inquiry>

    <synthesis>
      Bring together the insights from your different lines of questioning.
    </synthesis>
  </process>

  <alternatives>
    Identify questions that could have led your reasoning in different directions.
    Briefly explore how these might have changed your approach.
  </alternatives>

  <evaluation>
    Assess how effective your questioning approach was for this particular problem.
    Identify any limitations in your questioning.
  </evaluation>

  <conclusion>
    Based on your Socratic inquiry, state your final answer.
  </conclusion>
</reasoning>

In your Socratic reasoning, focus on:
1. Asking clear, fundamental questions
2. Exploring assumptions
3. Seeking evidence and reasoning
4. Examining implications and consequences
5. Questioning the question itself when appropriate"

/-- The `FIRST_PRINCIPLES_PROMPT` template of `app/prompt/reasoning.py`, verbatim. -/
def FIRST_PRINCIPLES_PROMPT : String :=
  "You are an expert in First Principles reasoning.

For the given problem, break it down to its fundamental truths and build up from there.

Structure your response using the following XML format:

<reasoning>
  <question>Restate the problem to ensure understanding</question>

  <strategy>first_principles</strategy>

  <process>
    <axioms>
      List the fundamental truths or principles that are relevant to this problem.
      These should be statements that are self-evident or supported by strong evidence.
    </axioms>

    <decomposition>
      Break down the problem into its basic components.
      Show how each component relates to your fundamental principles.
    </decomposition>

    <reconstruction>
      Rebuild your understanding of the problem from these first principles.
      Show how the solution emerges from fundamental truths.
    </reconstruction>
  </process>

  <alternatives>
    Consider alternative sets of first principles that could be applied.
    Explore how different fundamental assumptions would change your approach.
  </alternatives>

  <evaluation>
    Assess the reliability of your chosen first principles.
    Discuss any limitations of your approach.
  </evaluation>

  <conclusion>
    Based on your first principles analysis, state your final answer.
  </conclusion>
</reasoning>

In your First Principles reasoning, be sure to:
1. Identify truly fundamental principles, not just assumptions
2. Question conventional wisdom
3. Build up your solution systematically
4. Be explicit about causal relationships"

/-- The `COUNTERFACTUAL_PROMPT` template of `app/prompt/reasoning.py`, verbatim. -/
def COUNTERFACTUAL_PROMPT : String :=
  "You are an expert in Counterfactual reasoning.

For the given problem, explore hypothetical alternatives to key aspects to gain insight.

Structure your response using the following XML format:

<reasoning>
  <question>Restate the problem to ensure understanding</question>

  <strategy>counterfactual</strategy>

  <process>
    <baseline>
      Establish the actual situation or conventional understanding.
    </baseline>

    <counterfactual id=\"1\">
      <scenario>Describe a specific \"what if\" scenario that changes a key assumption</scenario>
      <implications>Trace the logical consequences of this change</implications>
      <insight>Explain what this counterfactual reveals about the original problem</insight>
    </counterfactual>

    <counterfactual id=\"2\">
      <!-- Repeat structure for additional counterfactuals -->
    </counterfactual>

    <synthesis>
      Integrate insights from the counterfactual scenarios.
      Explain how they inform your understanding of the problem.
    </synthesis>
  </process>

  <alternatives>
    Suggest other counterfactual scenarios that could provide different insights.
  </alternatives>

  <evaluation>
    Assess how reliable the insights from your counterfactual reasoning are.
    Discuss limitations of comparing hypothetical scenarios to reality.
  </evaluation>

  <conclusion>
    Based on your counterfactual analysis, state your final answer.
  </conclusion>
</reasoning>

In your Counterfactual reasoning, focus on:
1. Creating plausible alternative scenarios
2. Tracing implications systematically
3. Drawing insights that apply to the real problem
4. Using counterfactuals to test causal relationships"

/-- The `STEP_BACK_PROMPT` template of `app/prompt/reasoning.py`, verbatim. -/
def STEP_BACK_PROMPT : String :=
  "You are an expert in Step-Back reasoning.

For the given problem, take a step back to view it from a higher level before diving into details.

Structure your response using the following XML format:

<reasoning>
  <question>Restate the problem to ensure understanding</question>

  <strategy>step_back</strategy>

  <process>
    <initial_framing>
      Describe how the problem appears at first glance.
    </initial_framing>

    <step_back>
      Take a broader perspective on the problem.
      Consider the wider context, related domains, or higher-level principles.
      Identify patterns or abstractions that might not be apparent from the direct view.
    </step_back>

    <reframing>
      Based on your broader perspective, reframe the problem.
      Show how this new framing changes your approach.
    </reframing>

    <solution_approach>
      From this higher-level perspective, develop your approach to the problem.
      Work through the solution in a systematic way.
    </solution_approach>
  </process>

  <alternatives>
    Consider other ways you could have \"stepped back\" from the problem.
    Briefly explore how different perspectives might lead to different approaches.
  </alternatives>

  <evaluation>
    Assess the benefits and potential limitations of your stepped-back perspective.
    Consider what might be missed by taking this broader view.
  </evaluation>

  <conclusion>
    Based on your step-back reasoning, state your final answer.
  </conclusion>
</reasoning>

In your Step-Back reasoning, focus on:
1. Identifying higher-level patterns and principles
2. Seeing connections to similar problems or domains
3. Finding the right level of abstraction
4. Bringing insights from the broader view back to the specific problem"

/-- The `ANALOGICAL_PROMPT` template of `app/prompt/reasoning.py`, verbatim. -/
def ANALOGICAL_PROMPT : String :=
  "You are an expert in Analogical reasoning.

For the given problem, use analogies to familiar situations to gain insight.

Structure your response using the following XML format:

<reasoning>
  <question>Restate the problem to ensure understanding</question>

  <strategy>analogical</strategy>

  <process>
    <problem_analysis>
      Identify the key features and structure of the problem.
    </problem_analysis>

    <analogy id=\"1\">
      <source>Describe a situation that is analogous to the current problem</source>
      <mapping>
        Explicitly map elements from the source to the target problem.
        Identify corresponding entities, relationships, and dynamics.
      </mapping>
      <transfer>
        Transfer insights, solutions, or reasoning approaches from the source to the target.
        Explain how the analogy helps address the current problem.
      </transfer>
    </analogy>

    <analogy id=\"2\">
      <!-- Repeat structure for additional analogies -->
    </analogy>

    <synthesis>
      Integrate insights from your analogies.
      Develop a solution approach informed by these analogies.
    </synthesis>
  </process>

  <alternatives>
    Consider potential limitations of your chosen analogies.
    Suggest other analogies that might provide different insights.
  </alternatives>

  <evaluation>
    Assess how well your analogies map to the target problem.
    Discuss any ways the analogies might be misleading.
  </evaluation>

  <conclusion>
    Based on your analogical reasoning, state your final answer.
  </conclusion>
</reasoning>

In your Analogical reasoning, focus on:
1. Choosing appropriate source analogies with structural similarity
2. Mapping corresponding elements explicitly
3. Identifying both similarities and differences
4. Transferring relevant insights while adapting for differences"

/-- The `MULTI_STRATEGY_PROMPT` template of `app/prompt/reasoning.py`, verbatim. -/
def MULTI_STRATEGY_PROMPT : String :=
  "You are an advanced reasoning assistant capable of employing multiple reasoning strategies.

For the given problem, you will primarily use {primary_strategy} reasoning, supplemented by insights from {additional_strategies} approaches.

Structure your response using XML tags to clearly mark different reasoning phases:

<reasoning>
  <question>Restate the problem to ensure understanding</question>

  <primary_strategy>{primary_strategy}</primary_strategy>

  <process>
    <!-- Use the structure appropriate for your primary strategy -->
    <!-- Incorporate elements from your secondary strategies as needed -->
  </process>

  <alternatives>
    Consider alternative approaches to this problem.
    For each alternative, briefly explain how it would work.
  </alternatives>

  <evaluation>
    Assess the strengths and weaknesses of your reasoning approach.
    Explain why your combination of strategies is appropriate for this problem.
  </evaluation>

  <conclusion>
    State your final answer clearly and concisely, based on your reasoning above.
  </conclusion>
</reasoning>

Remember to be thorough and transparent in your thinking process, ensuring each logical connection is explicit."

/-- The `STRATEGY_PROMPTS` registry: strategy identifier to template. -/
def STRATEGY_PROMPTS : List (List Char × List Char) :=
  [("chain_of_thought".data, COT_PROMPT.data),
   ("tree_of_thought".data, TOT_PROMPT.data),
   ("socratic".data, SOCRATIC_PROMPT.data),
   ("first_principles".data, FIRST_PRINCIPLES_PROMPT.data),
   ("counterfactual".data, COUNTERFACTUAL_PROMPT.data),
   ("step_back".data, STEP_BACK_PROMPT.data),
   ("analogical".data, ANALOGICAL_PROMPT.data)]

/-- Python `STRATEGY_PROMPTS.get(strategy_value, "")`: empty text for an
identifier outside the registry, never an exception. -/
def strategyPromptLookup (id : List Char) : List Char :=
  (STRATEGY_PROMPTS.lookup id).getD []

/-- ASCII upper-casing of one character. -/
def upperChar (c : Char) : Char :=
  if 'a' <= c && c <= 'z' then Char.ofNat (c.toNat - 32) else c

/-- Python `str.title()` on the alphabetic/space texts this module builds:
the first letter of each alphabetic run is upper-cased, the rest
lower-cased. -/
def titleCaseAux : Bool -> List Char -> List Char
  | _, [] => []
  | prevAlpha, c :: cs =>
    (if c.isAlpha && !prevAlpha then upperChar c
     else if c.isAlpha then lowerChar c else c) :: titleCaseAux c.isAlpha cs

def titleCase (s : List Char) : List Char := titleCaseAux false s

/-- Python `value.replace(UNDERSCORE, SPACE)` as used on strategy values. -/
def spacify (s : List Char) : List Char :=
  s.map fun c => if c = '_' then ' ' else c

/-- Replace every occurrence of `needle` in the text (Python `str.format`
substitution of one named placeholder; placeholders are nonempty). -/
def replaceAllSub (needle repl : List Char) : List Char -> List Char
  | [] => []
  | h :: hs =>
    if startsWithL needle (h :: hs) then
      repl ++ replaceAllSub needle repl (hs.drop (needle.length - 1))
    else h :: replaceAllSub needle repl hs
termination_by l => l.length
decreasing_by
  · simp only [List.length_drop, List.length_cons]; omega
  · simp only [List.length_cons]; omega

/-- `_get_system_prompt`: the dedicated template for a single active
strategy, the formatted multi-strategy combinator otherwise.  The single
active strategy is recovered by filtering the enum order (Python
`next(iter(...))` on a one-element set); the impossible empty/plural match
arm returns empty text.  Python iterates the active set in unspecified
order when listing the additional strategies; the embedding lists them in
enum declaration order. -/
def get_system_prompt (s : AgentState) : List Char :=
  if s.activeStrategies.card = 1 then
    match allStrategies.filter (fun t => decide (t ∈ s.activeStrategies)) with
    | [t] => strategyPromptLookup t.value
    | _ => []
  else
    let primaryStr := titleCase (spacify s.primaryStrategy.value)
    let additional := (allStrategies.filter fun t =>
        decide (t ∈ s.activeStrategies) && decide (t ≠ s.primaryStrategy)).map
      fun t => titleCase (spacify t.value)
    let additionalStr := List.intercalate ", ".data additional
    replaceAllSub "{additional_strategies}".data additionalStr
      (replaceAllSub "{primary_strategy}".data primaryStr MULTI_STRATEGY_PROMPT.data)

/-! ## Theorems -/

/-- A default-configuration agent state used for concrete instantiations. -/
def baseState : AgentState := freshState ReasoningStrategy.COT [] 3 10 []

/-- C3: for every response text (including text with no markers at all), the
completion predicate returns true whenever the current reasoning step is at
least `max_steps`: the step ceiling forces completion regardless of marker
content. -/
theorem step_ceiling_forces_completion (s : AgentState) (response : List Char)
    (h : s.maxSteps ≤ s.currentReasoningStep) :
    is_reasoning_complete s response = true := by
  unfold is_reasoning_complete
  rw [if_pos h]

theorem step_ceiling_forces_completion_witness :
    ({ baseState with currentReasoningStep := 10 } : AgentState).maxSteps ≤
      ({ baseState with currentReasoningStep := 10 } : AgentState).currentReasoningStep ∧
    is_reasoning_complete { baseState with currentReasoningStep := 10 }
      "no markers at all".data = true :=
  ⟨by decide,
   step_ceiling_forces_completion { baseState with currentReasoningStep := 10 }
     "no markers at all".data (by decide)⟩

/-- C10: a strategy identifier enters `strategies_used` iff the lower-cased
response contains the exact contiguous tag text
`<strategy>identifier</strategy>` (or the primary-strategy variant);
whitespace between the markers and the identifier prevents detection even
when both markers occur in the response. -/
theorem strategy_detection_exact (response : List Char) (st : ReasoningStrategy) :
    (st.value ∈ usedStrategies response ↔
      (strategyTagDetected response st.value ||
        primaryTagDetected response st.value) = true) ∧
    usedStrategies "<strategy> socratic </strategy>".data = [] ∧
    containsSub "<strategy>".data (lowerL "<strategy> socratic </strategy>".data) = true ∧
    containsSub "</strategy>".data (lowerL "<strategy> socratic </strategy>".data) = true ∧
    "socratic".data ∈ usedStrategies "<strategy>socratic</strategy>".data := by
  refine ⟨?_, by decide, by decide, by decide, by decide⟩
  have hm : st.value ∈ allStrategies.map ReasoningStrategy.value := by
    cases st <;> decide
  simp [usedStrategies, List.mem_filter, hm]

/-- C7: conclusion extraction from the retained last result: the example text
yields `42` (substring between the markers, located case-insensitively on a
lower-cased copy, sliced from the original text and trimmed); when the
opening marker is absent, the closing marker is absent, or the first closing
marker does not lie strictly after the first opening marker, `act` degrades
to the generic fallback message.  All functions involved are total, so no
exception is possible. -/
theorem conclusion_extraction_spec :
    extractedConclusion "blah <conclusion> 42 </conclusion> more".data =
      some "42".data ∧
    (∀ cur : List Char, findSub "<conclusion>".data (lowerL cur) = none →
      act_action_msg cur = actFallbackMsg) ∧
    (∀ cur : List Char, findSub "</conclusion>".data (lowerL cur) = none →
      act_action_msg cur = actFallbackMsg) ∧
    (∀ (cur : List Char) (cs ce : Nat),
      findSub "<conclusion>".data (lowerL cur) = some cs →
      findSub "</conclusion>".data (lowerL cur) = some ce → ce ≤ cs →
      act_action_msg cur = actFallbackMsg) := by
  refine ⟨by decide, ?_, ?_, ?_⟩
  · intro cur h
    cases h2 : findSub "</conclusion>".data (lowerL cur) <;>
      simp [act_action_msg, extractedConclusion, h, h2]
  · intro cur h
    cases h1 : findSub "<conclusion>".data (lowerL cur) <;>
      simp [act_action_msg, extractedConclusion, h, h1]
  · intro cur cs ce h1 h2 hle
    simp [act_action_msg, extractedConclusion, h1, h2, Nat.not_lt.mpr hle]

theorem conclusion_extraction_spec_witness :
    (findSub "<conclusion>".data (lowerL "no markers here".data) = none ∧
      act_action_msg "no markers here".data = actFallbackMsg) ∧
    (findSub "<conclusion>".data
        (lowerL "</conclusion> x <conclusion> y".data) = some 16 ∧
      findSub "</conclusion>".data
        (lowerL "</conclusion> x <conclusion> y".data) = some 0 ∧
      act_action_msg "</conclusion> x <conclusion> y".data = actFallbackMsg) :=
  ⟨⟨by decide, conclusion_extraction_spec.2.1 "no markers here".data (by decide)⟩,
   ⟨by decide, by decide,
    conclusion_extraction_spec.2.2.2 "</conclusion> x <conclusion> y".data 16 0
      (by decide) (by decide) (by decide)⟩⟩

/-- Awaiting-confirmation state whose most recent caller message is
`not sure` (reasoning finished, overall step past the first). -/
def c1State : AgentState :=
  { freshState ReasoningStrategy.COT [] 3 10 [⟨Role.user, "not sure".data⟩] with
    inReasoningPhase := false
    reasoningComplete := true
    currentReasoningStep := 1
    currentStep := 2 }

/-- C1 counterexample: on the caller message `not sure` the controller
returns the proceed-to-act signal (`think` returns `true`) and appends no
clarification message, because the affirmative token `sure` occurs inside
`not sure` as a substring. -/
theorem affirmative_substring_counterexample :
    (think c1State []).2 = true ∧ (think c1State []).1.memory = c1State.memory := by
  decide

/-- C1 (amended): in the awaiting-confirmation phase the proceed-to-act
signal is exactly the substring test of the affirmative tokens against the
lower-cased most recent caller message; `Yes, let us do it` proceeds (via
the token `yes`), and so does `not sure` (via the token `sure`), while a
message containing no token yields the no-action signal with the
clarification appended exactly once (when the overall step exceeds 1 and
reasoning is complete). -/
theorem affirmative_substring_amended (s : AgentState) (response : List Char)
    (hphase : s.inReasoningPhase = false) (hstep : s.currentStep ≠ 1) :
    ((think s response).2 = should_act s.memory) ∧
    (should_act s.memory = false →
      ((1 < s.currentStep ∧ s.reasoningComplete = true) →
        (think s response).1.memory =
          s.memory ++ [⟨Role.assistant, clarificationMsg⟩]) ∧
      (¬(1 < s.currentStep ∧ s.reasoningComplete = true) →
        (think s response).1.memory = s.memory)) ∧
    should_act [⟨Role.user, "Yes, let\x27s do it".data⟩] = true ∧
    should_act [⟨Role.user, "not sure".data⟩] = true ∧
    should_act [⟨Role.user, "hmm, thinking".data⟩] = false := by
  have hinit : ¬(s.currentStep = 1 ∨
      (s.inReasoningPhase = true ∧ s.currentReasoningStep = 0)) := by
    rintro (h | ⟨h, -⟩)
    · exact hstep h
    · rw [hphase] at h; exact Bool.false_ne_true h
  refine ⟨?_, ?_, by decide, by decide, by decide⟩
  · unfold think
    rw [if_neg hinit, if_neg (by rw [hphase]; exact Bool.false_ne_true)]
    unfold thinkConfirm
    by_cases hsa : should_act s.memory
    · rw [if_pos hsa, hsa]
    · rw [Bool.not_eq_true] at hsa
      rw [if_neg (by rw [hsa]; exact Bool.false_ne_true), hsa]
      by_cases hc : 1 < s.currentStep ∧ s.reasoningComplete = true
      · rw [if_pos hc]
      · rw [if_neg hc]
  · intro hsa
    unfold think
    rw [if_neg hinit, if_neg (by rw [hphase]; exact Bool.false_ne_true)]
    unfold thinkConfirm
    rw [if_neg (by rw [hsa]; exact Bool.false_ne_true)]
    constructor
    · intro hc
      rw [if_pos hc]
    · intro hc
      rw [if_neg hc]

/-- Awaiting-confirmation state whose most recent caller message contains no
affirmative token. -/
def c1StateNeg : AgentState :=
  { c1State with memory := [⟨Role.user, "hmm, thinking".data⟩] }

theorem affirmative_substring_amended_witness :
    ((think c1State []).2 = should_act c1State.memory) ∧
    should_act c1StateNeg.memory = false ∧
    (think c1StateNeg []).1.memory =
      c1StateNeg.memory ++ [⟨Role.assistant, clarificationMsg⟩] :=
  ⟨(affirmative_substring_amended c1State [] (by decide) (by decide)).1,
   by decide,
   ((affirmative_substring_amended c1StateNeg [] (by decide) (by decide)).2.1
      (by decide)).1 (by decide)⟩

/-- Reasoning state with only `tree_of_thought` active, for the conditional
component analysis. -/
def c4State : AgentState :=
  { freshState ReasoningStrategy.TOT [] 3 10 [] with
    activeStrategies := {ReasoningStrategy.TOT}
    currentReasoningStep := 1 }

/-- C4 counterexample: on the response `<branch>A` the analyzer records the
conditional component `branch` as present although the closing marker
`</branch>` is nowhere in the response — an opening marker alone counts for
the conditional components. -/
theorem component_markers_counterexample :
    List.lookup "branch".data (analyzeRecord c4State "<branch>A".data).components =
      some true ∧
    containsSub "</branch>".data (lowerL "<branch>A".data) = false := by
  decide

/-- C4 (amended): the five standard components (question, process,
alternatives, evaluation, conclusion) are recorded as present exactly when
both their opening and closing markers are found case-insensitively; the
conditional components (branch, branch_selection for tree-of-thought,
counterfactual, inquiry) are recorded as present exactly when their opening
marker is found — their closing markers are never consulted (and for
`branch` and `counterfactual` even the `>` of the opening tag is not
required). -/
theorem component_markers_amended (s : AgentState) (response : List Char) :
    (List.lookup "question".data (analyzeRecord s response).components =
      some (containsSub "<question>".data (lowerL response) &&
            containsSub "</question>".data (lowerL response))) ∧
    (List.lookup "process".data (analyzeRecord s response).components =
      some (containsSub "<process>".data (lowerL response) &&
            containsSub "</process>".data (lowerL response))) ∧
    (List.lookup "alternatives".data (analyzeRecord s response).components =
      some (containsSub "<alternatives>".data (lowerL response) &&
            containsSub "</alternatives>".data (lowerL response))) ∧
    (List.lookup "evaluation".data (analyzeRecord s response).components =
      some (containsSub "<evaluation>".data (lowerL response) &&
            containsSub "</evaluation>".data (lowerL response))) ∧
    (List.lookup "conclusion".data (analyzeRecord s response).components =
      some (containsSub "<conclusion>".data (lowerL response) &&
            containsSub "</conclusion>".data (lowerL response))) ∧
    (ReasoningStrategy.TOT ∈ s.activeStrategies →
      List.lookup "branch".data (analyzeRecord s response).components =
        some (containsSub "<branch".data (lowerL response)) ∧
      List.lookup "branch_selection".data (analyzeRecord s response).components =
        some (containsSub "<branch_selection>".data (lowerL response))) ∧
    (ReasoningStrategy.COUNTERFACTUAL ∈ s.activeStrategies →
      List.lookup "counterfactual".data (analyzeRecord s response).components =
        some (containsSub "<counterfactual".data (lowerL response))) ∧
    (ReasoningStrategy.SOCRATIC ∈ s.activeStrategies →
      List.lookup "inquiry".data (analyzeRecord s response).components =
        some (containsSub "<inquiry>".data (lowerL response))) := by
  refine ⟨?_, ?_, ?_, ?_, ?_, ?_, ?_, ?_⟩
  · simp +decide [analyzeRecord, foundComponents, componentNames, List.lookup]
  · simp +decide [analyzeRecord, foundComponents, componentNames, List.lookup]
  · simp +decide [analyzeRecord, foundComponents, componentNames, List.lookup]
  · simp +decide [analyzeRecord, foundComponents, componentNames, List.lookup]
  · simp +decide [analyzeRecord, foundComponents, componentNames, List.lookup]
  · intro hT
    constructor <;>
      simp +decide [analyzeRecord, foundComponents, componentNames,
        advancedComponents, List.lookup, hT]
  · intro hCF
    by_cases hT : ReasoningStrategy.TOT ∈ s.activeStrategies <;>
      simp +decide [analyzeRecord, foundComponents, componentNames,
        advancedComponents, List.lookup, hCF, hT]
  · intro hS
    by_cases hT : ReasoningStrategy.TOT ∈ s.activeStrategies <;>
      by_cases hCF : ReasoningStrategy.COUNTERFACTUAL ∈ s.activeStrategies <;>
        simp +decide [analyzeRecord, foundComponents, componentNames,
          advancedComponents, List.lookup, hS, hT, hCF]

/-- Reasoning state with all three conditional-component strategies active. -/
def c4StateAll : AgentState :=
  { freshState ReasoningStrategy.TOT
      [ReasoningStrategy.COUNTERFACTUAL, ReasoningStrategy.SOCRATIC] 3 10 [] with
    activeStrategies := {ReasoningStrategy.TOT, ReasoningStrategy.COUNTERFACTUAL,
      ReasoningStrategy.SOCRATIC}
    currentReasoningStep := 1 }

theorem component_markers_amended_witness :
    (List.lookup "conclusion".data
      (analyzeRecord c4StateAll "<branch><counterfactual id=1><inquiry>".data).components =
      some false) ∧
    (List.lookup "branch".data
      (analyzeRecord c4StateAll "<branch><counterfactual id=1><inquiry>".data).components =
      some true) ∧
    (List.lookup "counterfactual".data
      (analyzeRecord c4StateAll "<branch><counterfactual id=1><inquiry>".data).components =
      some true) ∧
    (List.lookup "inquiry".data
      (analyzeRecord c4StateAll "<branch><counterfactual id=1><inquiry>".data).components =
      some true) := by
  have h := component_markers_amended c4StateAll
    "<branch><counterfactual id=1><inquiry>".data
  refine ⟨?_, ?_, ?_, ?_⟩
  · rw [h.2.2.2.2.1]; decide
  · rw [(h.2.2.2.2.2.1 (by decide)).1]; decide
  · rw [h.2.2.2.2.2.2.1 (by decide)]; decide
  · rw [h.2.2.2.2.2.2.2 (by decide)]; decide

/-- C5 counterexample: with primary `chain_of_thought` and fallback list
`[chain_of_thought, chain_of_thought]`, the validator removes only the
first occurrence, so the primary still appears among the validated
fallbacks. -/
theorem fallback_dedup_counterexample :
    ensure_unique_strategies ReasoningStrategy.COT
        [ReasoningStrategy.COT, ReasoningStrategy.COT] = [ReasoningStrategy.COT] ∧
    ReasoningStrategy.COT ∈ ensure_unique_strategies ReasoningStrategy.COT
        [ReasoningStrategy.COT, ReasoningStrategy.COT] := by
  decide

/-- C5 (amended): when the caller-supplied fallback list contains the
primary at most once, validation removes it entirely, so the primary never
appears among the validated fallbacks; initialization keeps at most two of
them, and the active set is the primary plus the first up-to-two validated
fallbacks (hence at most three strategies). -/
theorem fallback_dedup_amended (S : ReasoningStrategy)
    (v : List ReasoningStrategy) (h : v.count S ≤ 1) :
    S ∉ ensure_unique_strategies S v ∧
    ((ensure_unique_strategies S v).take 2).length ≤ 2 ∧
    (∀ s : AgentState, s.primaryStrategy = S →
      s.fallbackStrategies = ensure_unique_strategies S v →
      (initialize_reasoning s).activeStrategies =
        insert S ((ensure_unique_strategies S v).take 2).toFinset ∧
      (initialize_reasoning s).activeStrategies.card ≤ 3) := by
  refine ⟨?_, ?_, ?_⟩
  · unfold ensure_unique_strategies
    by_cases hm : S ∈ v
    · rw [if_pos hm]
      intro hmem
      have hcount := List.count_pos_iff.mpr hmem
      rw [List.count_erase_self] at hcount
      omega
    · rw [if_neg hm]; exact hm
  · rw [List.length_take]; omega
  · intro s hp hf
    constructor
    · unfold initialize_reasoning
      rw [hp, hf]
    · unfold initialize_reasoning
      calc (insert s.primaryStrategy (s.fallbackStrategies.take 2).toFinset).card
          ≤ (s.fallbackStrategies.take 2).toFinset.card + 1 :=
            Finset.card_insert_le _ _
        _ ≤ (s.fallbackStrategies.take 2).length + 1 :=
            Nat.add_le_add_right (s.fallbackStrategies.take 2).toFinset_card_le 1
        _ ≤ 3 := by rw [List.length_take]; omega

/-- Concrete instantiation state for the amended C5 theorem. -/
def c5State : AgentState :=
  freshState ReasoningStrategy.COT
    (ensure_unique_strategies ReasoningStrategy.COT
      [ReasoningStrategy.TOT, ReasoningStrategy.COT, ReasoningStrategy.SOCRATIC])
    3 10 []

theorem fallback_dedup_amended_witness :
    ([ReasoningStrategy.TOT, ReasoningStrategy.COT,
        ReasoningStrategy.SOCRATIC].count ReasoningStrategy.COT ≤ 1) ∧
    ReasoningStrategy.COT ∉ ensure_unique_strategies ReasoningStrategy.COT
      [ReasoningStrategy.TOT, ReasoningStrategy.COT, ReasoningStrategy.SOCRATIC] ∧
    (initialize_reasoning c5State).activeStrategies =
      insert ReasoningStrategy.COT
        ((ensure_unique_strategies ReasoningStrategy.COT
          [ReasoningStrategy.TOT, ReasoningStrategy.COT,
            ReasoningStrategy.SOCRATIC]).take 2).toFinset ∧
    (initialize_reasoning c5State).activeStrategies.card ≤ 3 :=
  ⟨by decide,
   (fallback_dedup_amended ReasoningStrategy.COT _ (by decide)).1,
   ((fallback_dedup_amended ReasoningStrategy.COT
      [ReasoningStrategy.TOT, ReasoningStrategy.COT, ReasoningStrategy.SOCRATIC]
      (by decide)).2.2 c5State rfl rfl).1,
   ((fallback_dedup_amended ReasoningStrategy.COT
      [ReasoningStrategy.TOT, ReasoningStrategy.COT, ReasoningStrategy.SOCRATIC]
      (by decide)).2.2 c5State rfl rfl).2⟩

/-- C2: below the step ceiling with `tree_of_thought` inactive (in any state
whose primary strategy is active, as initialization guarantees): when the
active set is exactly `{chain_of_thought}`, completion holds iff the
response carries the conclusion marker pair, regardless of step number; in
every other case completion holds iff the conclusion pair is present and
the step is at least 2. -/
theorem completion_below_ceiling (s : AgentState) (response : List Char)
    (hstep : s.currentReasoningStep < s.maxSteps)
    (hTot : ReasoningStrategy.TOT ∉ s.activeStrategies)
    (hprim : s.primaryStrategy ∈ s.activeStrategies) :
    (s.activeStrategies = {ReasoningStrategy.COT} →
      is_reasoning_complete s response = hasConclusion response) ∧
    (s.activeStrategies ≠ {ReasoningStrategy.COT} →
      is_reasoning_complete s response =
        (hasConclusion response && decide (2 ≤ s.currentReasoningStep))) := by
  unfold is_reasoning_complete
  rw [if_neg (by omega : ¬ s.maxSteps ≤ s.currentReasoningStep),
    if_neg (by rintro ⟨h, -⟩; exact hTot h)]
  constructor
  · intro hact
    rw [if_pos]
    constructor
    · rw [hact]; rfl
    · rw [hact] at hprim
      exact Finset.mem_singleton.mp hprim
  · intro hact
    rw [if_neg]
    rintro ⟨hcard, hpc⟩
    obtain ⟨a, ha⟩ := Finset.card_eq_one.mp hcard
    apply hact
    rw [ha, Finset.mem_singleton] at hprim
    rw [ha, ← hprim, hpc]

/-- Single-strategy chain-of-thought state at step 1. -/
def cotStateC2 : AgentState :=
  { freshState ReasoningStrategy.COT [] 3 10 [] with
    activeStrategies := {ReasoningStrategy.COT}
    currentReasoningStep := 1 }

/-- Two-strategy (non-tree) state at step 1. -/
def multiStateC2a : AgentState :=
  { freshState ReasoningStrategy.COT [ReasoningStrategy.SOCRATIC] 3 10 [] with
    activeStrategies := {ReasoningStrategy.COT, ReasoningStrategy.SOCRATIC}
    currentReasoningStep := 1 }

/-- Two-strategy (non-tree) state at step 2. -/
def multiStateC2b : AgentState :=
  { multiStateC2a with currentReasoningStep := 2 }

/-- A response carrying the conclusion marker pair. -/
def conclResponse : List Char := "<conclusion>x</conclusion>".data

theorem completion_below_ceiling_witness :
    is_reasoning_complete cotStateC2 conclResponse = hasConclusion conclResponse ∧
    is_reasoning_complete multiStateC2a conclResponse =
      (hasConclusion conclResponse && decide (2 ≤ multiStateC2a.currentReasoningStep)) ∧
    is_reasoning_complete multiStateC2b conclResponse =
      (hasConclusion conclResponse && decide (2 ≤ multiStateC2b.currentReasoningStep)) ∧
    hasConclusion conclResponse = true ∧
    is_reasoning_complete multiStateC2a conclResponse = false ∧
    is_reasoning_complete multiStateC2b conclResponse = true :=
  ⟨(completion_below_ceiling cotStateC2 conclResponse (by decide) (by decide)
      (by decide)).1 (by decide),
   (completion_below_ceiling multiStateC2a conclResponse (by decide) (by decide)
      (by decide)).2 (by decide),
   (completion_below_ceiling multiStateC2b conclResponse (by decide) (by decide)
      (by decide)).2 (by decide),
   by decide, by decide, by decide⟩

/-- C9: the template catalog degrades to empty text for an identifier
outside its keys (a total lookup, never an exception); every identifier of
the closed strategy enumeration is a key of the registry with a nonempty
template, so the empty-template branch is reached only for identifiers
outside the keys; and with a single active strategy the system prompt is
exactly the registry lookup of that strategy. -/
theorem strategy_catalog_spec :
    (∀ id : List Char, STRATEGY_PROMPTS.lookup id = none →
      strategyPromptLookup id = []) ∧
    (∀ st : ReasoningStrategy,
      (STRATEGY_PROMPTS.lookup st.value).isSome = true ∧
      (strategyPromptLookup st.value).isEmpty = false) ∧
    (∀ s : AgentState, s.activeStrategies.card = 1 →
      ∃ t ∈ s.activeStrategies,
        get_system_prompt s = strategyPromptLookup t.value) := by
  refine ⟨?_, ?_, ?_⟩
  · intro id h
    unfold strategyPromptLookup
    rw [h]
    rfl
  · intro st
    cases st <;> exact ⟨rfl, rfl⟩
  · intro s h
    obtain ⟨a, ha⟩ := Finset.card_eq_one.mp h
    refine ⟨a, by rw [ha]; exact Finset.mem_singleton_self a, ?_⟩
    unfold get_system_prompt
    rw [if_pos h]
    have hf : allStrategies.filter (fun t => decide (t ∈ s.activeStrategies)) = [a] := by
      rw [ha]
      cases a <;> decide
    rw [hf]

/-- Single-strategy socratic state for the system-prompt instantiation. -/
def c9State : AgentState :=
  { freshState ReasoningStrategy.SOCRATIC [] 3 10 [] with
    activeStrategies := {ReasoningStrategy.SOCRATIC} }

theorem strategy_catalog_spec_witness :
    (STRATEGY_PROMPTS.lookup "unknown_strategy".data = none ∧
      strategyPromptLookup "unknown_strategy".data = []) ∧
    (STRATEGY_PROMPTS.lookup ReasoningStrategy.SOCRATIC.value).isSome = true ∧
    (c9State.activeStrategies.card = 1 ∧
      ∃ t ∈ c9State.activeStrategies,
        get_system_prompt c9State = strategyPromptLookup t.value) :=
  ⟨⟨by decide, strategy_catalog_spec.1 "unknown_strategy".data (by decide)⟩,
   (strategy_catalog_spec.2.1 ReasoningStrategy.SOCRATIC).1,
   ⟨by decide, strategy_catalog_spec.2.2 c9State (by decide)⟩⟩

/-- C8 helper state: `tree_of_thought` plus one more strategy active, step 2,
step budget 5. -/
def gStateC8 : AgentState :=
  { freshState ReasoningStrategy.TOT [ReasoningStrategy.COT] 3 5 [] with
    activeStrategies := {ReasoningStrategy.TOT, ReasoningStrategy.COT}
    currentReasoningStep := 2 }

/-- C8: step guidance is a pure function of the step number, the active
strategy set and `max_steps`; step 1 always yields empty guidance; and in
the tree-of-thought scenario (step 2, two active strategies, `max_steps`
5) the guidance carries the tree-specific step-2 instruction but neither
the cross-strategy synthesis instruction nor the finalize-conclusion
instruction. -/
theorem step_guidance_spec :
    (∀ s : AgentState, s.currentReasoningStep = 1 → get_step_guidance s = []) ∧
    (∀ s t : AgentState, s.currentReasoningStep = t.currentReasoningStep →
      s.activeStrategies = t.activeStrategies → s.maxSteps = t.maxSteps →
      get_step_guidance s = get_step_guidance t) ∧
    (gStateC8.activeStrategies.card = 2 ∧
      ReasoningStrategy.TOT ∈ gStateC8.activeStrategies ∧
      gStateC8.currentReasoningStep = 2 ∧ gStateC8.maxSteps = 5) ∧
    containsSub totStep2Guidance (get_step_guidance gStateC8) = true ∧
    containsSub synthesisGuidance (get_step_guidance gStateC8) = false ∧
    containsSub finalizeGuidance (get_step_guidance gStateC8) = false := by
  refine ⟨?_, ?_, by decide, by decide, by decide, by decide⟩
  · intro s h
    unfold get_step_guidance
    rw [if_pos h]
  · intro s t h1 h2 h3
    unfold get_step_guidance
    rw [h1, h2, h3]

theorem step_guidance_spec_witness :
    ({ gStateC8 with currentReasoningStep := 1 } : AgentState).currentReasoningStep = 1 ∧
    get_step_guidance { gStateC8 with currentReasoningStep := 1 } = [] :=
  ⟨by decide,
   step_guidance_spec.1 { gStateC8 with currentReasoningStep := 1 } (by decide)⟩

/-- Invariant carried across agent-loop invocations: after `k` invocations
the overall step counter is `k`, the reasoning step counter is positive,
and while the reasoning phase lasts the reasoning step counter and the
trace length both equal `k`. -/
def C6Inv (k : Nat) (s : AgentState) : Prop :=
  s.currentStep = k ∧ 1 ≤ s.currentReasoningStep ∧
    (s.inReasoningPhase = true →
      s.currentReasoningStep = k ∧ s.reasoningTrace.length = k)

lemma invoke_reasoning_fields (s : AgentState) (r : List Char)
    (hstep : s.currentStep + 1 ≠ 1) (hrs : s.currentReasoningStep ≠ 0)
    (hph : s.inReasoningPhase = true) :
    (invoke s r).currentStep = s.currentStep + 1 ∧
    (invoke s r).currentReasoningStep = s.currentReasoningStep + 1 ∧
    (invoke s r).reasoningTrace.length = s.reasoningTrace.length + 1 := by
  have hinit : (s.currentStep + 1 = 1 ∨
      (s.inReasoningPhase = true ∧ s.currentReasoningStep = 0)) = False :=
    eq_false (by rintro (h1 | ⟨-, h3⟩) <;> [exact hstep h1; exact hrs h3])
  simp only [invoke, think, hinit, if_false]
  simp only [thinkReasoning, analyze_reasoning, hph, if_true]
  split <;> simp

lemma invoke_confirm_fields (s : AgentState) (r : List Char)
    (hstep : s.currentStep + 1 ≠ 1) (hph : s.inReasoningPhase = false) :
    (invoke s r).currentStep = s.currentStep + 1 ∧
    (invoke s r).currentReasoningStep = s.currentReasoningStep ∧
    (invoke s r).inReasoningPhase = false := by
  have hinit : (s.currentStep + 1 = 1 ∨
      (s.inReasoningPhase = true ∧ s.currentReasoningStep = 0)) = False :=
    eq_false (by
      rintro (h1 | ⟨h2, -⟩)
      · exact hstep h1
      · rw [hph] at h2; exact Bool.false_ne_true h2)
  simp only [invoke, think, hinit, if_false]
  simp only [thinkConfirm, hph, Bool.false_eq_true, if_false]
  split <;> [skip; split] <;> simp [hph]

lemma invoke_inv {k : Nat} {s : AgentState} {r : List Char}
    (hk : 1 ≤ k) (h : C6Inv k s) : C6Inv (k + 1) (invoke s r) := by
  obtain ⟨hcs, hrs, himp⟩ := h
  by_cases hph : s.inReasoningPhase = true
  · obtain ⟨hrstep, htrace⟩ := himp hph
    obtain ⟨f1, f2, f3⟩ := invoke_reasoning_fields s r (by omega) (by omega) hph
    exact ⟨by omega, by omega, fun _ => ⟨by omega, by omega⟩⟩
  · rw [Bool.not_eq_true] at hph
    obtain ⟨f1, f2, f3⟩ := invoke_confirm_fields s r (by omega) hph
    refine ⟨by omega, by omega, fun hcontra => ?_⟩
    rw [f3] at hcontra
    exact absurd hcontra (by simp)

lemma first_invoke (p : ReasoningStrategy) (fb : List ReasoningStrategy)
    (d m : Nat) (mem : List Message) (r : List Char) :
    C6Inv 1 (invoke (freshState p fb d m mem) r) := by
  unfold C6Inv
  simp only [invoke, freshState, think, Nat.zero_add, eq_self_iff_true,
    true_or, if_true]
  simp only [initialize_reasoning, thinkReasoning, analyze_reasoning, if_true]
  split <;> simp

lemma run_inv {k : Nat} {s : AgentState} (hk : 1 ≤ k) (h : C6Inv k s)
    (rs : List (List Char)) : C6Inv (k + rs.length) (run s rs) := by
  induction rs generalizing k s with
  | nil => simpa [run] using h
  | cons r rest ih =>
    have h1 : C6Inv (k + 1) (invoke s r) := invoke_inv hk h
    have h2 := ih (k := k + 1) (s := invoke s r) (by omega) h1
    have hrun : run s (r :: rest) = run (invoke s r) rest := rfl
    rw [hrun]
    have hlen : k + (r :: rest).length = k + 1 + rest.length := by simp; omega
    rw [hlen]
    exact h2

/-- C6: starting from a freshly constructed agent, as long as the reasoning
phase has not completed, `N` invocations of the agent loop leave the
reasoning step counter at `N` and the trace with exactly `N` records (each
reasoning-phase invocation increments the counter once and appends exactly
one record). -/
theorem trace_length_equals_step (p : ReasoningStrategy)
    (fb : List ReasoningStrategy) (d m : Nat) (mem : List Message)
    (rs : List (List Char))
    (h : (run (freshState p fb d m mem) rs).inReasoningPhase = true) :
    (run (freshState p fb d m mem) rs).currentReasoningStep = rs.length ∧
    (run (freshState p fb d m mem) rs).reasoningTrace.length = rs.length := by
  cases rs with
  | nil => exact ⟨rfl, rfl⟩
  | cons r rest =>
    have h1 : C6Inv 1 (invoke (freshState p fb d m mem) r) :=
      first_invoke p fb d m mem r
    have h2 : C6Inv (1 + rest.length)
        (run (invoke (freshState p fb d m mem) r) rest) :=
      run_inv (by omega) h1 rest
    have hrun : run (freshState p fb d m mem) (r :: rest) =
        run (invoke (freshState p fb d m mem) r) rest := rfl
    rw [hrun] at h ⊢
    obtain ⟨-, -, himp⟩ := h2
    obtain ⟨ha, hb⟩ := himp h
    constructor
    · rw [ha]; simp; omega
    · rw [hb]; simp; omega

/-- Two conclusion-free generation responses. -/
def c6Responses : List (List Char) :=
  ["step one thoughts".data, "step two thoughts".data]

theorem trace_length_equals_step_witness :
    (run (freshState ReasoningStrategy.COT [] 3 10 []) c6Responses).inReasoningPhase
      = true ∧
    (run (freshState ReasoningStrategy.COT [] 3 10 []) c6Responses).currentReasoningStep
      = c6Responses.length ∧
    (run (freshState ReasoningStrategy.COT [] 3 10 []) c6Responses).reasoningTrace.length
      = c6Responses.length :=
  ⟨by decide,
   (trace_length_equals_step ReasoningStrategy.COT [] 3 10 [] c6Responses
     (by decide)).1,
   (trace_length_equals_step ReasoningStrategy.COT [] 3 10 [] c6Responses
     (by decide)).2⟩

theorem strategy_detection_exact_witness :
    "socratic".data ∈ usedStrategies "<strategy>socratic</strategy>".data ↔
      (strategyTagDetected "<strategy>socratic</strategy>".data "socratic".data ||
        primaryTagDetected "<strategy>socratic</strategy>".data "socratic".data) = true :=
  (strategy_detection_exact "<strategy>socratic</strategy>".data
    ReasoningStrategy.SOCRATIC).1

end Reasoning
